import Mathlib

/-!
Verification development for the node-sql-query-builder repository.

The implementation file (`sqlOperation.ts`) provides `buildSqlQuery`
(assembly plus a safety guard on the assembled text), `validations` (a
fail-fast validator), and two rendering helpers `valuesString` and
`columnString`.  The shapes of the input are declared in `src/types.ts`
(`SqlQuery`, `Table`, `Column`, `comparisonOperator`, `Comparison`,
`joinType`, `Join`, `aggregateType`, `Aggregate`, `clientType`); the
inductives below translate those declarations, with TypeScript
string-or-record unions as two-constructor inductives and string-literal
unions as enumerations.  All functions below are direct translations of the
TypeScript source; JavaScript strings are `String` (lists of characters),
numbers that appear (limits, comparison values) are `Nat`/`Int`, and the
promise-based result is an `Except` in which — as for a JS promise — the
first settlement (reject or resolve) wins.
-/

/-- Translation of `clientType` of src/types.ts:
`'mysql' | 'postgres' | 'sqlite' | 'mssql'`. -/
inductive Dialect
  | mysql
  | postgres
  | sqlite
  | mssql
deriving DecidableEq

/-- Translation of `Table` of src/types.ts: a plain string, or a record with
a name and an optional alias. -/
inductive TableRef
  | plain (s : String)
  | named (name : String) (al : Option String)

/-- Translation of `Column` of src/types.ts: a plain string, or a record
with tableAlias, name and an optional alias. -/
inductive Column
  | plain (s : String)
  | obj (tableAlias : String) (name : String) (al : Option String)

/-- Translation of `comparisonOperator` of src/types.ts: the fourteen
operator spellings (`opText` below gives each constructor its spelling). -/
inductive Op
  | eq
  | lt
  | gt
  | le
  | ge
  | ne
  | like
  | notLike
  | inOp
  | notIn
  | between
  | notBetween
  | isNull
  | isNotNull

/-- Modelled from the spec: src/types.ts declares the element type of
`vals` only as `any`; the spec (section 3) says a comparison carries an
ordered sequence of scalar values, so `any` is narrowed to the scalars that
occur — string, number or boolean. -/
inductive Value
  | str (s : String)
  | num (i : Int)
  | bool (b : Bool)

/-- Translation of `Comparison` of src/types.ts: `{col, vals, op}`, with
`vals: any[]` narrowed to a list of scalar `Value`s (see `Value`). -/
structure Comparison where
  col : Column
  op : Op
  vals : List Value

/-- Translation of `joinType` of src/types.ts:
`'inner' | 'left' | 'right' | 'full'`. -/
inductive JoinType
  | inner
  | left
  | right
  | full
deriving DecidableEq

/-- Translation of `Join` of src/types.ts: `{table, on, type}`. -/
structure Join where
  table : String
  type : JoinType
  «on» : List Comparison

/-- Translation of `aggregateType` of src/types.ts:
`'COUNT' | 'SUM' | 'AVG' | 'MIN' | 'MAX'`. -/
inductive AggType
  | count
  | sum
  | avg
  | min
  | max

/-- Translation of `Aggregate` of src/types.ts: `{col, type}`. -/
structure Aggregate where
  type : AggType
  col : Column

/-- Translation of the `SqlQuery` interface of src/types.ts.  Its optional
list-valued fields (`columns?`, `joins?`, `wheres?`, `groupBy?`, `having?`,
`orderBy?`) are plain lists with `[]` for an absent field: every use in the
source goes through `?.length`, `?.map(...) .join(...) || ''` or
`?.join(...) || ''`, for which `undefined` and `[]` behave identically.
`limit?: number` is an optional number, modelled as `Option Nat` (the spec
calls it a non-negative integer); the JS truthiness test `limit && ...`
makes `0` behave as absent, which the theorems treat via `limitTruthy`.
`client` is required by the interface, so the destructuring default
`client = 'mssql'` in the builder is never exercised. -/
structure SqlQuery where
  distinct : Bool
  aggregate : Option Aggregate
  columns : List Column
  tables : List TableRef
  joins : List Join
  wheres : List Comparison
  groupBy : List Column
  having : List Comparison
  orderBy : List String
  limit : Option Nat
  client : Dialect

/-- Decimal digit character of `n % 10`, as JS number-to-string produces. -/
def digitChar (n : Nat) : Char :=
  if n % 10 == 0 then '0'
  else if n % 10 == 1 then '1'
  else if n % 10 == 2 then '2'
  else if n % 10 == 3 then '3'
  else if n % 10 == 4 then '4'
  else if n % 10 == 5 then '5'
  else if n % 10 == 6 then '6'
  else if n % 10 == 7 then '7'
  else if n % 10 == 8 then '8'
  else '9'

/-- Fuel-driven decimal rendering of a natural number (most significant digit
first); the fuel only bounds the recursion depth. -/
def natCharsAux : Nat → Nat → List Char
  | 0, _ => []
  | fuel + 1, n => if n < 10 then [digitChar n] else natCharsAux fuel (n / 10) ++ [digitChar n]

/-- Decimal digits of `n`, exactly as JS template interpolation of a
non-negative number renders it. -/
def natChars (n : Nat) : List Char := natCharsAux (n + 1) n

/-- Decimal string of a natural number. -/
def natStr (n : Nat) : String := String.mk (natChars n)

/-- Decimal string of an integer, as JS renders a number. -/
def intStr (i : Int) : String := if i < 0 then "-" ++ natStr i.natAbs else natStr i.toNat

/-- JS truthiness of an optional string field: `undefined` and the empty
string are falsy. -/
def optAliasTruthy : Option String → Option String
  | none => none
  | some a => if a = "" then none else some a

/-- JS template interpolation of a scalar value (no quoting). -/
def rawValText : Value → String
  | .str s => s
  | .num i => intStr i
  | .bool b => if b then "true" else "false"

/-- The quoting pattern used throughout `valuesString`:
`typeof value === 'string' ? `'value'` : value`. -/
def quotedValText : Value → String
  | .str s => "\x27" ++ s ++ "\x27"
  | .num i => intStr i
  | .bool b => if b then "true" else "false"

/-- Interpolation of a possibly-missing value: JS renders `undefined` when an
index is out of range, and quotes present string values. -/
def optQuotedText : Option Value → String
  | none => "undefined"
  | some v => quotedValText v

/-- Interpolation of a possibly-missing value without quoting (the LIKE
branch interpolates `values[0]` directly into the pattern). -/
def optRawText : Option Value → String
  | none => "undefined"
  | some v => rawValText v

/-- Operator spelling used by the renderer. -/
def opText : Op → String
  | .eq => "="
  | .lt => "<"
  | .gt => ">"
  | .le => "<="
  | .ge => ">="
  | .ne => "!="
  | .like => "LIKE"
  | .notLike => "NOT LIKE"
  | .inOp => "IN"
  | .notIn => "NOT IN"
  | .between => "BETWEEN"
  | .notBetween => "NOT BETWEEN"
  | .isNull => "IS NULL"
  | .isNotNull => "IS NOT NULL"

/-- Translation of `valuesString(operator, values)`.  The default branch is
the source's `${operator} ${typeof values === 'string' ? `'values'` : values}`:
with `values` an array (its declared shape), the test is false and the array
is interpolated as JS does — elements joined by a comma, each unquoted. -/
def valuesString (operator : Op) (values : List Value) : String :=
  match operator with
  | .inOp => "IN (" ++ String.intercalate ", " (values.map quotedValText) ++ ")"
  | .notIn => "NOT IN (" ++ String.intercalate ", " (values.map quotedValText) ++ ")"
  | .between => "BETWEEN (" ++ optQuotedText values[0]? ++ " AND " ++ optQuotedText values[1]? ++ ")"
  | .notBetween => "NOT BETWEEN (" ++ optQuotedText values[0]? ++ " AND " ++ optQuotedText values[1]? ++ ")"
  | .like => "LIKE \x27%" ++ optRawText values[0]? ++ "%\x27"
  | .notLike => "NOT LIKE \x27%" ++ optRawText values[0]? ++ "%\x27"
  | .isNull => "IS NULL"
  | .isNotNull => "IS NOT NULL"
  | other => opText other ++ " " ++ String.intercalate "," (values.map rawValText)

/-- Translation of `columnString(col)`. -/
def columnString : Column → String
  | .plain s => s
  | .obj ta nm _ => ta ++ "." ++ nm

/-- Rendering of one table in the FROM list:
`typeof tab === 'string' ? tab : `name[ AS alias]``. -/
def tableText : TableRef → String
  | .plain s => s
  | .named n a =>
    n ++ (match optAliasTruthy a with
          | some x => " AS " ++ x
          | none => "")

/-- Translation of the `tablesString` constant. -/
def tablesString (p : SqlQuery) : String := String.intercalate ", " (p.tables.map tableText)

/-- Rendering of one projection column as on line 20 of the source: an
object column renders as `name[ AS alias]` — only `col.name`, not
`columnString`'s qualified `tableAlias.name`. -/
def colProjText : Column → String
  | .plain s => s
  | .obj _ nm a =>
    nm ++ (match optAliasTruthy a with
           | some x => " AS " ++ x
           | none => "")

/-- Translation of the `columnsString` constant. -/
def columnsString (p : SqlQuery) : String := String.intercalate ", " (p.columns.map colProjText)

/-- Rendering of one rendered comparison `columnString(col) valuesString(op, vals)`. -/
def comparisonText (c : Comparison) : String := columnString c.col ++ " " ++ valuesString c.op c.vals

/-- Upper-cased join type, as `type.toUpperCase()` produces. -/
def joinTypeText : JoinType → String
  | .inner => "INNER"
  | .left => "LEFT"
  | .right => "RIGHT"
  | .full => "FULL"

/-- Rendering of one join. -/
def joinText (j : Join) : String :=
  joinTypeText j.type ++ " JOIN " ++ j.table ++ " ON " ++
    String.intercalate " AND " (j.on.map comparisonText)

/-- Translation of the `joinsString` constant. -/
def joinsString (p : SqlQuery) : String := String.intercalate " " (p.joins.map joinText)

/-- Translation of the `wheresString` constant. -/
def wheresString (p : SqlQuery) : String := String.intercalate " AND " (p.wheres.map comparisonText)

/-- Translation of the `havingString` constant. -/
def havingString (p : SqlQuery) : String := String.intercalate " AND " (p.having.map comparisonText)

/-- Translation of the `groupByString` constant. -/
def groupByString (p : SqlQuery) : String := String.intercalate ", " (p.groupBy.map columnString)

/-- Translation of the `orderByString` constant. -/
def orderByString (p : SqlQuery) : String := String.intercalate ", " p.orderBy

/-- JS truthiness of the `limit` field: present and non-zero. -/
def limitTruthy (p : SqlQuery) : Bool :=
  match p.limit with
  | some n => !(n == 0)
  | none => false

/-- The `TOP` fragment: `client === 'mssql' && limit ? `TOP limit` : ''`. -/
def topFrag (p : SqlQuery) : String :=
  match p.limit with
  | some n => if p.client == Dialect.mssql && !(n == 0) then "TOP " ++ natStr n else ""
  | none => ""

/-- The `LIMIT` fragment: `client !== 'mssql' && limit ? `LIMIT limit` : ''`. -/
def limitFrag (p : SqlQuery) : String :=
  match p.limit with
  | some n => if !(p.client == Dialect.mssql) && !(n == 0) then "LIMIT " ++ natStr n else ""
  | none => ""

/-- The `DISTINCT ` fragment. -/
def distinctFrag (p : SqlQuery) : String := if p.distinct then "DISTINCT " else ""

/-- The aggregate projection fragment `aggregate ? `TYPE(col)` : ''`. -/
def aggFrag (p : SqlQuery) : String :=
  match p.aggregate with
  | some a =>
    (match a.type with
     | .count => "COUNT"
     | .sum => "SUM"
     | .avg => "AVG"
     | .min => "MIN"
     | .max => "MAX") ++ "(" ++ columnString a.col ++ ")"
  | none => ""

/-- The column-list-or-star fragment
`!aggregate?.type && columns?.length ? columnsString : '*'`. -/
def projFrag (p : SqlQuery) : String :=
  if p.aggregate.isNone && !p.columns.isEmpty then columnsString p else "*"

/-- The joins piece `joinsString ? ` joinsString` : ''`. -/
def joinsPiece (p : SqlQuery) : String :=
  if joinsString p = "" then "" else " " ++ joinsString p

/-- The where piece `wheresString ? `WHERE wheresString` : ''`. -/
def wherePiece (p : SqlQuery) : String :=
  if wheresString p = "" then "" else "WHERE " ++ wheresString p

/-- The group-by piece. -/
def groupPiece (p : SqlQuery) : String :=
  if groupByString p = "" then "" else "GROUP BY " ++ groupByString p

/-- The having piece. -/
def havingPiece (p : SqlQuery) : String :=
  if havingString p = "" then "" else "HAVING " ++ havingString p

/-- The order-by piece. -/
def orderPiece (p : SqlQuery) : String :=
  if orderByString p = "" then "" else "ORDER BY " ++ orderByString p

/-- The raw statement template of lines 29-42, before whitespace collapsing:
`SELECT` followed by one ` ${...}` piece per clause (and the literal
` FROM ${tablesString}`). -/
def assembleRaw (p : SqlQuery) : String :=
  "SELECT" ++ " " ++ topFrag p ++ " " ++ distinctFrag p ++ " " ++ aggFrag p ++ " " ++ projFrag p
    ++ " FROM " ++ tablesString p ++ " " ++ joinsPiece p ++ " " ++ wherePiece p
    ++ " " ++ groupPiece p ++ " " ++ havingPiece p ++ " " ++ orderPiece p ++ " " ++ limitFrag p

/-- Whitespace in the sense of the regex `\s` (the characters that occur in
practice: space, tab, newline, carriage return, vertical tab, form feed). -/
def isWs (c : Char) : Bool :=
  c == ' ' || c == '\t' || c == '\n' || c == '\r' || c == '\x0b' || c == '\x0c'

/-- One pass of `replace(/\s+/g, ' ')`: every maximal whitespace run becomes
one space.  The boolean records whether the previous character was part of a
whitespace run (in which case its single space has already been emitted). -/
def squeezeSt : Bool → List Char → List Char
  | _, [] => []
  | inRun, c :: cs =>
    if isWs c then
      (if inRun then squeezeSt true cs else ' ' :: squeezeSt true cs)
    else c :: squeezeSt false cs

/-- Leading-whitespace removal. -/
def dropWs (l : List Char) : List Char := l.dropWhile isWs

/-- Trailing-whitespace removal. -/
def dropTrail (l : List Char) : List Char := (dropWs l.reverse).reverse

/-- JS `String.prototype.trim`. -/
def trimWs (l : List Char) : List Char := dropTrail (dropWs l)

/-- The source's `.trim().replace(/\s+/g, ' ')`. -/
def collapseWs (l : List Char) : List Char := squeezeSt false (trimWs l)

/-- The fully assembled, whitespace-normalized statement text. -/
def buildText (p : SqlQuery) : String := String.mk (collapseWs (assembleRaw p).data)

/-- Boolean test `l` starts with `n` (character lists). -/
def hasPre : List Char → List Char → Bool
  | _, [] => true
  | [], _ :: _ => false
  | c :: cs, d :: ds => c == d && hasPre cs ds

/-- Boolean test `l` contains `n` as a contiguous run (character lists). -/
def hasSub : List Char → List Char → Bool
  | [], n => hasPre [] n
  | c :: cs, n => hasPre (c :: cs) n || hasSub cs n

/-- Boolean test `l` ends with `n` (character lists). -/
def hasSuf (l n : List Char) : Bool := hasPre l.reverse n.reverse

/-- The alternatives of the denylist regex
`/;|--|\/\*|\*\/|xp_|exec|execute|insert|update|delete|drop|alter|create|truncate/i`. -/
def injTokens : List String :=
  [";", "--", "/*", "*/", "xp_", "exec", "execute", "insert", "update", "delete",
   "drop", "alter", "create", "truncate"]

/-- The case-insensitive denylist test `sqlInjectionPattern.test(query)`. -/
def sqlInjectionTest (q : String) : Bool :=
  injTokens.any (fun t => hasSub (q.data.map Char.toLower) t.data)

/-- The guard's second check `query.trim().toUpperCase().startsWith('SELECT')`. -/
def startsSelectCheck (q : String) : Bool :=
  hasPre ((trimWs q.data).map Char.toUpper) "SELECT".data

/-- Aliases of the object-form columns that are present and truthy:
`columns.filter(obj).map(col => col.alias).filter(alias => alias)`. -/
def presentAliases (cols : List Column) : List String :=
  cols.filterMap (fun c =>
    match c with
    | .plain _ => none
    | .obj _ _ a => optAliasTruthy a)

/-- Whether a list of strings has a duplicate — the source compares
`new Set(aliases).size` with `aliases.length`. -/
def hasDup : List String → Bool
  | [] => false
  | a :: rest => rest.contains a || hasDup rest

/-- Whether a column's `tableAlias` resolves:
`tables.filter(non-string).some(t => ta === t.name || ta === t.alias)`. -/
def tableResolves (p : SqlQuery) (ta : String) : Bool :=
  p.tables.any (fun t =>
    match t with
    | .plain _ => false
    | .named n a => n == ta || a == some ta)

/-- The first object-form column whose table alias does not resolve, with the
error message thrown for it. -/
def firstBadColumn (p : SqlQuery) : Option String :=
  p.columns.findSome? (fun c =>
    match c with
    | .plain _ => none
    | .obj ta nm _ =>
      if tableResolves p ta then none
      else some ("Column \x27" ++ nm ++ "\x27 references invalid table alias \x27" ++ ta ++ "\x27"))

/-- Names of the object-form groupBy columns:
`groupBy.filter(non-string).map(col => col.name)`. -/
def groupByNames (p : SqlQuery) : List String :=
  p.groupBy.filterMap (fun c =>
    match c with
    | .plain _ => none
    | .obj _ nm _ => some nm)

/-- The test `col.name.toUpperCase().match(/^(COUNT|SUM|AVG|MIN|MAX)\(/)`. -/
def isAggName (nm : String) : Bool :=
  let up := nm.data.map Char.toUpper
  hasPre up "COUNT(".data || hasPre up "SUM(".data || hasPre up "AVG(".data ||
    hasPre up "MIN(".data || hasPre up "MAX(".data

/-- The `notMappedColumns` computation: object-form selected columns that are
neither named in groupBy nor aggregate-function expressions; plain-string
columns `return false` and are never collected. -/
def notMapped (p : SqlQuery) : List Column :=
  p.columns.filter (fun c =>
    match c with
    | .plain _ => false
    | .obj _ nm _ => !((groupByNames p).contains nm) && !(isAggName nm))

/-- The first join with an empty `on` list, with the error thrown for it. -/
def firstBadJoin (p : SqlQuery) : Option String :=
  p.joins.findSome? (fun j =>
    if j.on.isEmpty then some ("Join condition is required for table: " ++ j.table) else none)

/-- Translation of `validations(params)`: the sequence of throwing checks, in
source order; the result is the message of the first check that throws. -/
def validations (p : SqlQuery) : Except String Unit :=
  if p.tables.isEmpty then .error "At least one table is required"
  else if (p.aggregate.isSome && p.groupBy.isEmpty) || (p.aggregate.isNone && !p.groupBy.isEmpty) then
    .error "Group by is required when using aggregate"
  else if !p.having.isEmpty && (p.groupBy.isEmpty || p.aggregate.isNone) then
    .error "Group by and aggregate are required when using having"
  else if !p.columns.isEmpty && hasDup (presentAliases p.columns) then
    .error "Column aliases must be unique"
  else match (if !p.columns.isEmpty then firstBadColumn p else none) with
  | some msg => .error msg
  | none =>
    if p.client == Dialect.sqlite && !p.having.isEmpty then
      .error "Having is not supported in sqlite"
    else if p.client == Dialect.sqlite &&
        p.joins.any (fun j => j.type == JoinType.right || j.type == JoinType.full) then
      .error "RIGHT and FULL JOINs are not supported in SQLite"
    else if p.client == Dialect.mssql && (p.distinct && !p.orderBy.isEmpty) then
      .error "Order by is not supported when using distinct in mssql"
    else if (p.client == Dialect.postgres || p.client == Dialect.mssql) &&
        (limitTruthy p && p.orderBy.isEmpty) then
      .error "Order by is required when using limit"
    else if (p.client == Dialect.mysql || p.client == Dialect.mssql) &&
        (!p.groupBy.isEmpty && !p.columns.isEmpty && !(notMapped p).isEmpty) then
      .error "Columns in SELECT must either be in GROUP BY or be aggregated"
    else match firstBadJoin p with
    | some msg => .error msg
    | none =>
      if decide (p.tables.length > 1) && p.wheres.isEmpty then
        .error "Where is required when using multiple tables"
      else .ok ()

/-- Translation of `buildSqlQuery(params)`.  `validations` throws first; then
the promise executor rejects on a denylist match, rejects when the text does
not start with SELECT, and otherwise resolves — a JS promise keeps its first
settlement, so an earlier reject makes the later `resolve(query)` a no-op. -/
def buildSqlQuery (p : SqlQuery) : Except String String :=
  match validations p with
  | .error e => .error e
  | .ok _ =>
    let query := buildText p
    if sqlInjectionTest query then
      .error "Possible SQL injection attempt detected. Only SELECT queries are allowed."
    else if !startsSelectCheck query then
      .error "Only SELECT queries are allowed."
    else .ok query

/-- Whether an `Except` result is a success. -/
def isOkResult : Except String String → Bool
  | .ok _ => true
  | .error _ => false

/-- Rule 1 of the ordered validation sequence (spec section 4.1): tables must
be non-empty. -/
def rule1 (p : SqlQuery) : Option String :=
  if p.tables.isEmpty then some "At least one table is required" else none

/-- Rule 2: aggregate and groupBy are coupled — error if exactly one is
present. -/
def rule2 (p : SqlQuery) : Option String :=
  if (p.aggregate.isSome && p.groupBy.isEmpty) || (p.aggregate.isNone && !p.groupBy.isEmpty) then
    some "Group by is required when using aggregate"
  else none

/-- Rule 3: having requires aggregate and groupBy. -/
def rule3 (p : SqlQuery) : Option String :=
  if !p.having.isEmpty && (p.groupBy.isEmpty || p.aggregate.isNone) then
    some "Group by and aggregate are required when using having"
  else none

/-- Rule 4: column aliases must be unique. -/
def rule4 (p : SqlQuery) : Option String :=
  if !p.columns.isEmpty && hasDup (presentAliases p.columns) then
    some "Column aliases must be unique"
  else none

/-- Rule 5: every object-form column's table alias must resolve. -/
def rule5 (p : SqlQuery) : Option String :=
  if !p.columns.isEmpty then firstBadColumn p else none

/-- Dialect restriction: sqlite rejects having. -/
def ruleSqliteHaving (p : SqlQuery) : Option String :=
  if p.client == Dialect.sqlite && !p.having.isEmpty then
    some "Having is not supported in sqlite"
  else none

/-- Dialect restriction: sqlite rejects right and full joins. -/
def ruleSqliteJoin (p : SqlQuery) : Option String :=
  if p.client == Dialect.sqlite &&
      p.joins.any (fun j => j.type == JoinType.right || j.type == JoinType.full) then
    some "RIGHT and FULL JOINs are not supported in SQLite"
  else none

/-- Dialect restriction: mssql rejects distinct combined with orderBy. -/
def ruleMssqlDistinct (p : SqlQuery) : Option String :=
  if p.client == Dialect.mssql && (p.distinct && !p.orderBy.isEmpty) then
    some "Order by is not supported when using distinct in mssql"
  else none

/-- Dialect restriction: postgres and mssql require orderBy with a (truthy)
limit. -/
def ruleLimitOrder (p : SqlQuery) : Option String :=
  if (p.client == Dialect.postgres || p.client == Dialect.mssql) &&
      (limitTruthy p && p.orderBy.isEmpty) then
    some "Order by is required when using limit"
  else none

/-- Dialect restriction: mysql and mssql require selected columns to be
grouped or aggregated when both groupBy and columns are present. -/
def ruleGrouped (p : SqlQuery) : Option String :=
  if (p.client == Dialect.mysql || p.client == Dialect.mssql) &&
      (!p.groupBy.isEmpty && !p.columns.isEmpty && !(notMapped p).isEmpty) then
    some "Columns in SELECT must either be in GROUP BY or be aggregated"
  else none

/-- Rule 6: the dialect restrictions, in source order. -/
def rule6 (p : SqlQuery) : Option String :=
  match ruleSqliteHaving p with
  | some m => some m
  | none =>
    match ruleSqliteJoin p with
    | some m => some m
    | none =>
      match ruleMssqlDistinct p with
      | some m => some m
      | none =>
        match ruleLimitOrder p with
        | some m => some m
        | none => ruleGrouped p

/-- Rule 7: every join needs at least one on condition. -/
def rule7 (p : SqlQuery) : Option String := firstBadJoin p

/-- Rule 8: multiple tables require wheres. -/
def rule8 (p : SqlQuery) : Option String :=
  if decide (p.tables.length > 1) && p.wheres.isEmpty then
    some "Where is required when using multiple tables"
  else none

/-- First present message in a list of optional messages. -/
def firstSome : List (Option String) → Option String
  | [] => none
  | o :: os =>
    match o with
    | some m => some m
    | none => firstSome os

/-- The eight validation rules in the order the spec lists them. -/
def orderedRules (p : SqlQuery) : List (Option String) :=
  [rule1 p, rule2 p, rule3 p, rule4 p, rule5 p, rule6 p, rule7 p, rule8 p]

/-- Validation described the spec's way: the single reported error is that of
the earliest violated rule. -/
def validateByRules (p : SqlQuery) : Except String Unit :=
  match firstSome (orderedRules p) with
  | some m => .error m
  | none => .ok ()

/-- Whether a selected column is object-form and neither named in groupBy nor
an aggregate-function expression (the condition `notMapped` collects). -/
def badSelectCol (p : SqlQuery) : Column → Bool
  | .plain _ => false
  | .obj _ nm _ => !((groupByNames p).contains nm) && !(isAggName nm)

/-- Example 1 of the spec: two qualified columns of `users` and one equality
predicate, mysql. -/
def ex1 : SqlQuery :=
  ⟨false, none,
   [Column.obj "users" "id" none, Column.obj "users" "name" none],
   [TableRef.named "users" none], [],
   [⟨Column.obj "users" "status" none, Op.eq, [Value.str "active"]⟩],
   [], [], [], none, Dialect.mysql⟩

/-- Example 2 of the spec: aggregate SUM(orders.total), groupBy orders.status,
having orders.total > 1000, mysql. -/
def ex2 : SqlQuery :=
  ⟨false, some ⟨AggType.sum, Column.obj "orders" "total" none⟩, [],
   [TableRef.named "orders" none], [], [],
   [Column.obj "orders" "status" none],
   [⟨Column.obj "orders" "total" none, Op.gt, [Value.num 1000]⟩],
   [], none, Dialect.mysql⟩

/-- A valid specification whose single projected column is object-form with
an alias. -/
def ex4 : SqlQuery :=
  ⟨false, none, [Column.obj "t" "c" (some "x")], [TableRef.named "t" none],
   [], [], [], [], [], none, Dialect.mysql⟩

/-- A validator-accepted specification whose table name contains the denylist
token `update`. -/
def cex6 : SqlQuery :=
  ⟨false, none, [], [TableRef.named "updates" none], [], [], [], [], [], none, Dialect.mysql⟩

/-- A validator-accepted specification whose table name contains the denylist
token `exec`. -/
def wit1 : SqlQuery :=
  ⟨false, none, [], [TableRef.named "exec_log" none], [], [], [], [], [], none, Dialect.mysql⟩

/-- A valid mssql specification with a limit (and the orderBy mssql then
requires). -/
def wit8 : SqlQuery :=
  ⟨false, none, [], [TableRef.named "users" none], [], [], [], [], ["id"], some 5, Dialect.mssql⟩

/-- A postgres specification with `limit: 0` and no orderBy. -/
def wit10 : SqlQuery :=
  ⟨false, none, [], [TableRef.named "t" none], [], [], [], [], [], some 0, Dialect.postgres⟩

/-- A mysql specification with groupBy present whose selected column is a
plain string that is neither named in groupBy nor an aggregate expression. -/
def cex9 : SqlQuery :=
  ⟨false, some ⟨AggType.count, Column.obj "t" "c" none⟩, [Column.plain "x"],
   [TableRef.named "t" none], [], [], [Column.obj "t" "g" none], [], [], none, Dialect.mysql⟩

/-- A mysql specification with groupBy present whose selected object-form
column is neither named in groupBy nor an aggregate expression. -/
def wit9 : SqlQuery :=
  ⟨false, some ⟨AggType.count, Column.obj "t" "c" none⟩, [Column.obj "t" "z" none],
   [TableRef.named "t" none], [], [], [Column.obj "t" "g" none], [], [], none, Dialect.mysql⟩

/-- Mapping of a first-violation result onto the validator's result type. -/
def toExcept (o : Option String) : Except String Unit :=
  match o with
  | some m => .error m
  | none => .ok ()

/-- One fail-fast step: an earlier error wins over the continuation. -/
def optErr (o : Option String) (k : Except String Unit) : Except String Unit :=
  match o with
  | some m => .error m
  | none => k

/-- The raw statement text after the TOP fragment (the tail common to all
decompositions of `assembleRaw`). -/
def tailFrom (p : SqlQuery) : List Char :=
  (distinctFrag p).data ++ ' ' :: ((aggFrag p).data ++ ' ' :: ((projFrag p).data ++ ' ' ::
    ('F' :: 'R' :: 'O' :: 'M' :: ' ' :: ((tablesString p).data ++ ' ' :: ((joinsPiece p).data ++ ' ' ::
    ((wherePiece p).data ++ ' ' :: ((groupPiece p).data ++ ' ' :: ((havingPiece p).data ++ ' ' ::
    ((orderPiece p).data ++ ' ' :: (limitFrag p).data)))))))))

/-- Appending distributes over the character data of strings. -/
theorem strData_append (a b : String) : (a ++ b).data = a.data ++ b.data := by
  cases a; cases b; rfl

/-- The characters of a packed character list are that list. -/
theorem strMk_data (l : List Char) : (String.mk l).data = l := rfl

/-- An empty rule list reports no error. -/
theorem toExcept_nil : toExcept (firstSome []) = Except.ok () := rfl

/-- Unfolding one rule of the fail-fast chain. -/
theorem toExcept_cons (o : Option String) (os : List (Option String)) :
    toExcept (firstSome (o :: os)) = optErr o (toExcept (firstSome os)) := by
  cases o <;> rfl

/-- Flattening a nested first-of-two option into two fail-fast steps. -/
theorem optErr_flat (o₁ o₂ : Option String) (k : Except String Unit) :
    optErr (match o₁ with | some m => some m | none => o₂) k = optErr o₁ (optErr o₂ k) := by
  cases o₁ <;> rfl

/-- A conditional rule is one conditional throw. -/
theorem optErr_ite (b : Bool) (m : String) (k : Except String Unit) :
    optErr (if b then some m else none) k = if b then Except.error m else k := by
  cases b <;> simp [optErr]

/-- The source's validator equals the ordered-rule description: its result is
determined by the earliest violated rule. -/
theorem validations_firstSome (p : SqlQuery) : validations p = validateByRules p := by
  have h : validateByRules p = toExcept (firstSome (orderedRules p)) := rfl
  rw [h]
  simp only [orderedRules, toExcept_cons, toExcept_nil, rule6, optErr_flat, rule1, rule2, rule3,
    rule4, rule5, ruleSqliteHaving, ruleSqliteJoin, ruleMssqlDistinct, ruleLimitOrder, ruleGrouped,
    rule7, rule8, optErr_ite]
  rfl

/-- The columns the grouping check collects are the bad object-form columns. -/
theorem notMapped_eq_filter (p : SqlQuery) : notMapped p = p.columns.filter (badSelectCol p) := rfl

/-- A filtered list is empty exactly when no element satisfies the filter. -/
theorem filter_isEmpty_eq {α : Type} (f : α → Bool) (l : List α) :
    (l.filter f).isEmpty = !(l.any f) := by
  induction l with
  | nil => rfl
  | cons a t ih => cases hfa : f a <;> simp [List.filter_cons, hfa, ih]

/-- The grouping check's collected list is empty exactly when no selected
column is a bad object-form column. -/
theorem notMapped_isEmpty (p : SqlQuery) :
    (notMapped p).isEmpty = !(p.columns.any (badSelectCol p)) := by
  rw [notMapped_eq_filter]; exact filter_isEmpty_eq _ _

/-- The join-condition error never spells the grouping error. -/
theorem joinMsg_ne (t : String) :
    "Join condition is required for table: " ++ t ≠
      "Columns in SELECT must either be in GROUP BY or be aggregated" := by
  intro h
  have h2 := congrArg (fun s : String => s.data.head?) h
  have e1 : ("Join condition is required for table: " : String).data =
      'J' :: "oin condition is required for table: ".data := rfl
  have e2 : ("Columns in SELECT must either be in GROUP BY or be aggregated" : String).data =
      'C' :: "olumns in SELECT must either be in GROUP BY or be aggregated".data := rfl
  simp only [strData_append, e1, e2, List.cons_append, List.head?] at h2
  exact absurd (Option.some.inj h2) (by decide)

/-- A list starts with itself, whatever follows. -/
theorem hasPre_append (n t : List Char) : hasPre (n ++ t) n = true := by
  induction n with
  | nil => cases t <;> rfl
  | cons c cs ih => simp [hasPre, ih]

/-- A list ends with itself, whatever precedes. -/
theorem hasSuf_append (x s : List Char) : hasSuf (x ++ s) s = true := by
  unfold hasSuf
  rw [List.reverse_append]
  exact hasPre_append s.reverse x.reverse

/-- Dropping a predicate stops inside the first chunk when some element
fails it. -/
theorem dropWhile_append_of_ex {p : Char → Bool} (xs ys : List Char)
    (h : ∃ x ∈ xs, p x = false) :
    (xs ++ ys).dropWhile p = xs.dropWhile p ++ ys := by
  induction xs with
  | nil => simp at h
  | cons a t ih =>
    cases ha : p a with
    | false => simp [List.dropWhile_cons, ha]
    | true =>
      obtain ⟨x, hx, hpx⟩ := h
      rcases List.mem_cons.mp hx with rfl | hx'
      · rw [ha] at hpx; exact Bool.noConfusion hpx
      · simp [List.dropWhile_cons, ha, ih ⟨x, hx', hpx⟩]

/-- Dropping a predicate passes over a chunk whose elements all satisfy it. -/
theorem dropWhile_append_all {p : Char → Bool} (xs ys : List Char)
    (h : ∀ x ∈ xs, p x = true) :
    (xs ++ ys).dropWhile p = ys.dropWhile p := by
  induction xs with
  | nil => simp
  | cons a t ih =>
    simp [List.dropWhile_cons, h a (List.mem_cons_self a t),
      ih (fun x hx => h x (List.mem_cons_of_mem a hx))]

/-- Trailing-whitespace removal does not cross a suffix that still holds a
non-whitespace character. -/
theorem dropTrail_append_ex (a b : List Char) (h : ∃ c ∈ b, isWs c = false) :
    dropTrail (a ++ b) = a ++ dropTrail b := by
  unfold dropTrail dropWs
  rw [List.reverse_append]
  obtain ⟨c, hc, hcw⟩ := h
  rw [dropWhile_append_of_ex b.reverse a.reverse ⟨c, List.mem_reverse.mpr hc, hcw⟩]
  rw [List.reverse_append, List.reverse_reverse]

/-- Trailing-whitespace removal keeps a leading non-whitespace chunk. -/
theorem dropTrail_chunk (a b : List Char) (ha : a ≠ [])
    (haw : ∀ c ∈ a, isWs c = false) :
    ∃ t, dropTrail (a ++ b) = a ++ t := by
  cases hb : b.any (fun c => !isWs c) with
  | true =>
    obtain ⟨c, hc, hcw⟩ := List.any_eq_true.mp hb
    exact ⟨dropTrail b, dropTrail_append_ex a b ⟨c, hc, by simpa using hcw⟩⟩
  | false =>
    refine ⟨[], ?_⟩
    unfold dropTrail dropWs
    rw [List.reverse_append]
    have hball : ∀ x ∈ b.reverse, isWs x = true := by
      intro x hx
      have := List.any_eq_false.mp hb x (List.mem_reverse.mp hx)
      simpa using this
    rw [dropWhile_append_all b.reverse a.reverse hball]
    obtain ⟨c, cs, hrev⟩ : ∃ c cs, a.reverse = c :: cs := by
      cases har : a.reverse with
      | nil => exact absurd (List.reverse_eq_nil_iff.mp har) ha
      | cons c cs => exact ⟨c, cs, rfl⟩
    rw [hrev, List.dropWhile_cons_of_neg, ← hrev, List.reverse_reverse, List.append_nil]
    have : c ∈ a := List.mem_reverse.mp (hrev ▸ List.mem_cons_self c cs)
    simp [haw c this]

/-- Trailing-whitespace removal is the identity when the text ends in a
non-whitespace chunk. -/
theorem dropTrail_end_nonws (a d : List Char) (hd : d ≠ [])
    (hdw : ∀ c ∈ d, isWs c = false) :
    dropTrail (a ++ d) = a ++ d := by
  unfold dropTrail dropWs
  rw [List.reverse_append]
  obtain ⟨c, cs, hrev⟩ : ∃ c cs, d.reverse = c :: cs := by
    cases har : d.reverse with
    | nil => exact absurd (List.reverse_eq_nil_iff.mp har) hd
    | cons c cs => exact ⟨c, cs, rfl⟩
  have hc : c ∈ d := List.mem_reverse.mp (hrev ▸ List.mem_cons_self c cs)
  rw [hrev, List.cons_append, List.dropWhile_cons_of_neg, ← List.cons_append, ← hrev,
    ← List.reverse_append, List.reverse_reverse]
  simp [hdw c hc]

/-- The collapse pass copies a non-whitespace character and resets its run
state. -/
theorem squeezeSt_nonws_cons (b : Bool) (d : Char) (m : List Char) (hd : isWs d = false) :
    squeezeSt b (d :: m) = d :: squeezeSt false m := by
  simp [squeezeSt, hd]

/-- The collapse pass copies a non-whitespace chunk verbatim. -/
theorem squeezeSt_chunk (w : List Char) (b : Bool) (t : List Char) (hw : w ≠ [])
    (hww : ∀ c ∈ w, isWs c = false) :
    squeezeSt b (w ++ t) = w ++ squeezeSt false t := by
  induction w generalizing b with
  | nil => exact absurd rfl hw
  | cons c cs ih =>
    rw [List.cons_append, squeezeSt_nonws_cons _ _ _ (hww c (List.mem_cons_self c cs))]
    cases hcs : cs with
    | nil => simp
    | cons c2 cs2 =>
      rw [← hcs, ih false (by simp [hcs]) (fun x hx => hww x (List.mem_cons_of_mem c hx))]
      rfl

/-- A space outside a whitespace run is kept and opens a run. -/
theorem squeezeSt_space_false (t : List Char) :
    squeezeSt false (' ' :: t) = ' ' :: squeezeSt true t := by
  simp [squeezeSt, isWs]

/-- A space inside a whitespace run is dropped. -/
theorem squeezeSt_space_true (t : List Char) :
    squeezeSt true (' ' :: t) = squeezeSt true t := by
  simp [squeezeSt, isWs]

/-- A space followed by a non-whitespace tail survives collapsing as a single
space wherever it sits (unless the run it ends was already open at the
start). -/
theorem squeezeSt_suffix (a : List Char) (b : Bool) (d : Char) (m : List Char)
    (hd : isWs d = false) :
    (∃ x, squeezeSt b (a ++ ' ' :: d :: m) = x ++ ' ' :: squeezeSt false (d :: m)) ∨
    (b = true ∧ squeezeSt b (a ++ ' ' :: d :: m) = squeezeSt false (d :: m)) := by
  induction a generalizing b with
  | nil =>
    cases b with
    | false =>
      left
      refine ⟨[], ?_⟩
      rw [List.nil_append, squeezeSt_space_false, squeezeSt_nonws_cons true d m hd,
        squeezeSt_nonws_cons false d m hd]
      rfl
    | true =>
      right
      refine ⟨rfl, ?_⟩
      rw [List.nil_append, squeezeSt_space_true, squeezeSt_nonws_cons true d m hd,
        squeezeSt_nonws_cons false d m hd]
  | cons c cs ih =>
    by_cases hc : isWs c = true
    · cases b with
      | false =>
        have step : squeezeSt false ((c :: cs) ++ ' ' :: d :: m) =
            ' ' :: squeezeSt true (cs ++ ' ' :: d :: m) := by
          simp [squeezeSt, hc]
        rcases ih true with ⟨x, hx⟩ | ⟨_, hx⟩
        · left; exact ⟨' ' :: x, by rw [step, hx]; rfl⟩
        · left; exact ⟨[], by rw [step, hx]; rfl⟩
      | true =>
        have step : squeezeSt true ((c :: cs) ++ ' ' :: d :: m) =
            squeezeSt true (cs ++ ' ' :: d :: m) := by
          simp [squeezeSt, hc]
        rcases ih true with ⟨x, hx⟩ | ⟨_, hx⟩
        · left; exact ⟨x, by rw [step, hx]⟩
        · right; exact ⟨rfl, by rw [step, hx]⟩
    · have hc' : isWs c = false := by simpa using hc
      have step : squeezeSt b ((c :: cs) ++ ' ' :: d :: m) =
          c :: squeezeSt false (cs ++ ' ' :: d :: m) := by
        rw [List.cons_append, squeezeSt_nonws_cons b c _ hc']
      rcases ih false with ⟨x, hx⟩ | ⟨hb, _⟩
      · left; exact ⟨c :: x, by rw [step, hx]; rfl⟩
      · exact Bool.noConfusion hb

/-- Digit characters are not whitespace. -/
theorem digitChar_nonws (n : Nat) : isWs (digitChar n) = false := by
  unfold digitChar
  repeat' split
  all_goals rfl

/-- No character of a rendered number is whitespace. -/
theorem natCharsAux_nonws (f : Nat) : ∀ n, ∀ c ∈ natCharsAux f n, isWs c = false := by
  induction f with
  | zero => intro n c hc; simp [natCharsAux] at hc
  | succ f ih =>
    intro n c hc
    unfold natCharsAux at hc
    by_cases h10 : n < 10
    · simp only [if_pos h10, List.mem_singleton] at hc
      exact hc ▸ digitChar_nonws n
    · simp only [if_neg h10, List.mem_append, List.mem_singleton] at hc
      rcases hc with hc | hc
      · exact ih (n / 10) c hc
      · exact hc ▸ digitChar_nonws n

/-- No character of a rendered number is whitespace. -/
theorem natChars_nonws (n : Nat) : ∀ c ∈ natChars n, isWs c = false :=
  natCharsAux_nonws (n + 1) n

/-- A rendered number has at least one digit. -/
theorem natChars_ne_nil (n : Nat) : natChars n ≠ [] := by
  unfold natChars natCharsAux
  by_cases h10 : n < 10 <;> simp [h10]

/-- The statement tail always holds the F of FROM. -/
theorem tailFrom_hasF (p : SqlQuery) : 'F' ∈ tailFrom p := by
  unfold tailFrom
  simp [List.mem_append, List.mem_cons]

/-- Shape of the raw statement text: SELECT, the TOP fragment, then the rest. -/
theorem assembleRaw_eq (p : SqlQuery) :
    (assembleRaw p).data =
      "SELECT".data ++ ' ' :: ((topFrag p).data ++ ' ' :: tailFrom p) := by
  have hsp : (" " : String).data = [' '] := rfl
  have hfrom : (" FROM " : String).data = ' ' :: 'F' :: 'R' :: 'O' :: 'M' :: [' '] := rfl
  unfold tailFrom
  simp only [assembleRaw, strData_append, hsp, hfrom, List.append_assoc, List.singleton_append,
    List.cons_append, List.nil_append]

/-- The collapsed statement text always begins with the characters SELECT. -/
theorem collapse_starts_select (p : SqlQuery) :
    ∃ m, collapseWs (assembleRaw p).data = "SELECT".data ++ m := by
  have hS : ("SELECT" : String).data = 'S' :: ("ELECT" : String).data := rfl
  have h1 : dropWs (assembleRaw p).data = (assembleRaw p).data := by
    rw [assembleRaw_eq, hS]
    unfold dropWs
    rw [List.cons_append, List.dropWhile_cons_of_neg (by decide)]
  obtain ⟨t, ht⟩ := dropTrail_chunk "SELECT".data (' ' :: ((topFrag p).data ++ ' ' :: tailFrom p))
    (by decide) (by decide)
  refine ⟨squeezeSt false t, ?_⟩
  unfold collapseWs trimWs
  rw [h1, assembleRaw_eq, ht, squeezeSt_chunk "SELECT".data false t (by decide) (by decide)]

/-- Claim C1: whenever the Safety Guard detects a violation on the assembled
text (denylist match or text not starting with SELECT), the delivered result
is a failure and never the SQL string — the later resolve cannot override the
earlier reject. -/
theorem claim_C1_guard_failure (p : SqlQuery)
    (h : sqlInjectionTest (buildText p) = true ∨ startsSelectCheck (buildText p) = false) :
    isOkResult (buildSqlQuery p) = false := by
  unfold buildSqlQuery
  cases hv : validations p with
  | error e => rfl
  | ok u =>
    rcases h with h | h
    · simp [h, isOkResult]
    · cases hinj : sqlInjectionTest (buildText p) <;> simp [hinj, h, isOkResult]

/-- Witness for claim C1: a spec whose table name trips the denylist and
whose invocation therefore fails. -/
theorem claim_C1_witness :
    (sqlInjectionTest (buildText wit1) = true ∨ startsSelectCheck (buildText wit1) = false)
      ∧ isOkResult (buildSqlQuery wit1) = false :=
  ⟨Or.inl rfl, claim_C1_guard_failure wit1 (Or.inl rfl)⟩

/-- Claim C2 (code bug): on Example 1 of the spec the builder actually
produces unqualified projection columns and an unquoted predicate value —
not the documented "SELECT users.id, users.name FROM users WHERE
users.status = 'active'". -/
theorem claim_C2_example1 :
    buildSqlQuery ex1 = Except.ok "SELECT id, name FROM users WHERE users.status = active"
      ∧ buildSqlQuery ex1 ≠
        Except.ok "SELECT users.id, users.name FROM users WHERE users.status = \x27active\x27" := by
  refine ⟨rfl, ?_⟩
  intro h
  have h0 : Except.ok (ε := String) "SELECT id, name FROM users WHERE users.status = active" =
      Except.ok "SELECT users.id, users.name FROM users WHERE users.status = \x27active\x27" :=
    (rfl : buildSqlQuery ex1 =
      Except.ok "SELECT id, name FROM users WHERE users.status = active").symm.trans h
  injection h0 with h1
  exact absurd h1 (by decide)

/-- Claim C3 (code bug): on Example 2 the wildcard is still emitted after the
aggregate — the projection condition selects the star branch whenever an
aggregate is present. -/
theorem claim_C3_example2 :
    buildSqlQuery ex2 =
      Except.ok "SELECT SUM(orders.total) * FROM orders GROUP BY orders.status HAVING orders.total > 1000"
      ∧ buildSqlQuery ex2 ≠
        Except.ok "SELECT SUM(orders.total) FROM orders GROUP BY orders.status HAVING orders.total > 1000" := by
  refine ⟨rfl, ?_⟩
  intro h
  have h0 : Except.ok (ε := String)
      "SELECT SUM(orders.total) * FROM orders GROUP BY orders.status HAVING orders.total > 1000" =
      Except.ok "SELECT SUM(orders.total) FROM orders GROUP BY orders.status HAVING orders.total > 1000" :=
    (rfl : buildSqlQuery ex2 = Except.ok
      "SELECT SUM(orders.total) * FROM orders GROUP BY orders.status HAVING orders.total > 1000").symm.trans h
  injection h0 with h1
  exact absurd h1 (by decide)

/-- Claim C4 (code bug): an object-form projection column renders as
`name AS alias` without its tableAlias qualifier — the projection list does
not use the qualified `tableAlias.name` rendering of `columnString`. -/
theorem claim_C4_projection :
    buildSqlQuery ex4 = Except.ok "SELECT c AS x FROM t"
      ∧ colProjText (Column.obj "t" "c" (some "x")) = "c AS x"
      ∧ colProjText (Column.obj "t" "c" (some "x")) ≠
          columnString (Column.obj "t" "c" (some "x")) ++ " AS x" := by
  refine ⟨rfl, rfl, ?_⟩
  intro h
  have h1 : ("c AS x" : String) = "t.c AS x" :=
    (rfl : colProjText (Column.obj "t" "c" (some "x")) = "c AS x").symm.trans h
  exact absurd h1 (by decide)

/-- Claim C5 (code bug): the default comparison branch interpolates the whole
vals array unquoted — a single string value renders as `= active`, not the
documented `= 'active'`. -/
theorem claim_C5_comparison_value :
    valuesString Op.eq [Value.str "active"] = "= active"
      ∧ valuesString Op.eq [Value.str "active"] ≠ "= \x27active\x27" := by
  refine ⟨rfl, ?_⟩
  intro h
  have h1 : ("= active" : String) = "= \x27active\x27" :=
    (rfl : valuesString Op.eq [Value.str "active"] = "= active").symm.trans h
  exact absurd h1 (by decide)

/-- Counterexample to claim C6: validation accepts a spec whose table name
contains the denylist token `update`, and the Safety Guard then rejects the
invocation — the guard's denylist branch is reachable on validator-accepted
input. -/
theorem claim_C6_counterexample :
    validations cex6 = Except.ok ()
      ∧ sqlInjectionTest (buildText cex6) = true
      ∧ buildSqlQuery cex6 =
          Except.error "Possible SQL injection attempt detected. Only SELECT queries are allowed." :=
  ⟨rfl, rfl, rfl⟩

/-- Claim C6 as amended: for every specification (validator-accepted or not)
the assembled, whitespace-normalized text starts with SELECT, so the guard's
only-SELECT branch is unreachable; the denylist branch, however, is reachable
because validation never inspects identifier or literal text. -/
theorem claim_C6_starts_select (p : SqlQuery) : startsSelectCheck (buildText p) = true := by
  obtain ⟨m, hm⟩ := collapse_starts_select p
  have hS : ("SELECT" : String).data = 'S' :: ("ELECT" : String).data := rfl
  have hbt : (buildText p).data = collapseWs (assembleRaw p).data := by
    simp only [buildText, strMk_data]
  rw [hm] at hbt
  simp only [startsSelectCheck, hbt]
  unfold trimWs
  have h3 : dropWs ("SELECT".data ++ m) = "SELECT".data ++ m := by
    rw [hS]
    unfold dropWs
    rw [List.cons_append, List.dropWhile_cons_of_neg (by decide)]
  rw [h3]
  obtain ⟨t2, ht2⟩ := dropTrail_chunk "SELECT".data m (by decide) (by decide)
  rw [ht2, List.map_append]
  rw [show ("SELECT".data.map Char.toUpper) = "SELECT".data from rfl]
  exact hasPre_append _ _

/-- Claim C7: validation is the ordered fail-fast rule sequence — for every
specification the reported result is that of the earliest violated rule in
the order tables, coupling, having, alias uniqueness, alias resolution,
dialect restrictions, join conditions, multi-table wheres. -/
theorem claim_C7_validation_order (p : SqlQuery) : validations p = validateByRules p :=
  validations_firstSome p

/-- Counterexample to claim C9: a mysql spec with groupBy and columns present
whose plain-string selected column is neither named in groupBy nor an
aggregate expression still passes validation — the requirement does not
apply to plain-string columns. -/
theorem claim_C9_counterexample :
    validations cex9 = Except.ok ()
      ∧ cex9.client = Dialect.mysql
      ∧ cex9.groupBy.isEmpty = false
      ∧ cex9.columns.map columnString = ["x"]
      ∧ (groupByNames cex9).contains "x" = false
      ∧ isAggName "x" = false :=
  ⟨rfl, rfl, rfl, rfl, rfl, rfl⟩

/-- Claim C9 as amended: once the earlier checks pass, validation fails with
the grouped-or-aggregated error exactly when the dialect is mysql or mssql,
groupBy and columns are both present, and some OBJECT-FORM selected column is
neither named in groupBy nor an aggregate-function expression; plain-string
columns are exempt. -/
theorem claim_C9_grouped_rule (p : SqlQuery)
    (h1 : rule1 p = none) (h2 : rule2 p = none) (h3 : rule3 p = none)
    (h4 : rule4 p = none) (h5 : rule5 p = none)
    (h6a : ruleSqliteHaving p = none) (h6b : ruleSqliteJoin p = none)
    (h6c : ruleMssqlDistinct p = none) (h6d : ruleLimitOrder p = none) :
    validations p = Except.error "Columns in SELECT must either be in GROUP BY or be aggregated"
      ↔ ((p.client = Dialect.mysql ∨ p.client = Dialect.mssql)
          ∧ p.groupBy.isEmpty = false ∧ p.columns.isEmpty = false
          ∧ p.columns.any (badSelectCol p) = true) := by
  rw [validations_firstSome]
  have hv : validateByRules p = toExcept (firstSome (orderedRules p)) := rfl
  rw [hv]
  simp only [orderedRules, toExcept_cons, h1, h2, h3, h4, h5, rule6, h6a, h6b, h6c,
    h6d, rule7, optErr]
  constructor
  · intro hL
    cases hg : ruleGrouped p with
    | some m =>
      have hcond : ((p.client == Dialect.mysql || p.client == Dialect.mssql)
          && (!p.groupBy.isEmpty && !p.columns.isEmpty && !(notMapped p).isEmpty)) = true := by
        by_contra hcnd
        have hz : ruleGrouped p = none := by
          simp only [ruleGrouped]
          rw [if_neg hcnd]
        rw [hz] at hg
        exact Option.noConfusion hg
      simp only [Bool.and_eq_true, Bool.or_eq_true, beq_iff_eq, Bool.not_eq_true'] at hcond
      obtain ⟨hcl, ⟨hgB, hcB⟩, hnm⟩ := hcond
      rw [notMapped_isEmpty, Bool.not_eq_false'] at hnm
      exact ⟨hcl, hgB, hcB, hnm⟩
    | none =>
      rw [hg] at hL
      simp only [optErr] at hL
      exfalso
      cases hj : firstBadJoin p with
      | some m =>
        rw [hj] at hL
        simp only [optErr] at hL
        have hmsg := Except.error.inj hL
        simp only [firstBadJoin] at hj
        obtain ⟨j, hmem, hfj⟩ := List.exists_of_findSome?_eq_some hj
        by_cases hon : j.on.isEmpty = true
        · rw [if_pos hon] at hfj
          exact joinMsg_ne j.table ((Option.some.inj hfj).trans hmsg)
        · rw [if_neg hon] at hfj
          exact Option.noConfusion hfj
      | none =>
        rw [hj] at hL
        simp only [optErr, rule8] at hL
        by_cases h8 : (decide (p.tables.length > 1) && p.wheres.isEmpty) = true
        · rw [if_pos h8] at hL
          exact absurd (Except.error.inj hL) (by decide)
        · rw [if_neg h8] at hL
          exact Except.noConfusion hL
  · intro hR
    obtain ⟨hcl, hgB, hcB, hany⟩ := hR
    have hg : ruleGrouped p =
        some "Columns in SELECT must either be in GROUP BY or be aggregated" := by
      simp only [ruleGrouped]
      have hc : ((p.client == Dialect.mysql || p.client == Dialect.mssql)
          && (!p.groupBy.isEmpty && !p.columns.isEmpty && !(notMapped p).isEmpty)) = true := by
        simp only [Bool.and_eq_true, Bool.or_eq_true, beq_iff_eq, Bool.not_eq_true',
          notMapped_isEmpty, Bool.not_eq_false']
        exact ⟨hcl, ⟨hgB, hcB⟩, hany⟩
      rw [if_pos hc]
    rw [hg]

/-- Witness for claim C9: a mysql spec with a bad object-form column on which
the earlier checks pass and the equivalence holds. -/
theorem claim_C9_witness :
    (rule1 wit9 = none ∧ rule2 wit9 = none ∧ rule3 wit9 = none ∧ rule4 wit9 = none
      ∧ rule5 wit9 = none ∧ ruleSqliteHaving wit9 = none ∧ ruleSqliteJoin wit9 = none
      ∧ ruleMssqlDistinct wit9 = none ∧ ruleLimitOrder wit9 = none)
    ∧ (validations wit9 = Except.error "Columns in SELECT must either be in GROUP BY or be aggregated"
        ↔ ((wit9.client = Dialect.mysql ∨ wit9.client = Dialect.mssql)
            ∧ wit9.groupBy.isEmpty = false ∧ wit9.columns.isEmpty = false
            ∧ wit9.columns.any (badSelectCol wit9) = true)) :=
  ⟨⟨rfl, rfl, rfl, rfl, rfl, rfl, rfl, rfl, rfl⟩,
   claim_C9_grouped_rule wit9 rfl rfl rfl rfl rfl rfl rfl rfl rfl⟩

/-- Claim C10: a limit equal to 0 is treated as absent — no TOP and no LIMIT
fragment is emitted for any dialect, and the postgres/mssql rule requiring an
orderBy with a limit does not fire. -/
theorem claim_C10_limit_zero (p : SqlQuery) (h : p.limit = some 0) :
    topFrag p = "" ∧ limitFrag p = "" ∧ ruleLimitOrder p = none := by
  unfold topFrag limitFrag ruleLimitOrder limitTruthy
  rw [h]
  simp

/-- Witness for claim C10: a postgres spec with limit 0 and no orderBy that
passes validation and renders without TOP or LIMIT. -/
theorem claim_C10_witness :
    wit10.limit = some 0
      ∧ (topFrag wit10 = "" ∧ limitFrag wit10 = "" ∧ ruleLimitOrder wit10 = none)
      ∧ validations wit10 = Except.ok ()
      ∧ buildText wit10 = "SELECT * FROM t" :=
  ⟨rfl, claim_C10_limit_zero wit10 rfl, rfl, rfl⟩

/-- Leading-whitespace removal is the identity on text starting with SELECT. -/
theorem dropWs_select_pre (x : List Char) : dropWs ("SELECT".data ++ x) = "SELECT".data ++ x := by
  rw [show ("SELECT" : String).data = 'S' :: ("ELECT" : String).data from rfl]
  unfold dropWs
  rw [List.cons_append, List.dropWhile_cons_of_neg (by decide)]

/-- The collapse pass is the identity on a non-whitespace word. -/
theorem squeezeSt_nonws_all (w : List Char) (b : Bool) (hw : w ≠ [])
    (hww : ∀ c ∈ w, isWs c = false) : squeezeSt b w = w := by
  conv_lhs => rw [← List.append_nil w]
  rw [squeezeSt_chunk w b [] hw hww]
  simp [squeezeSt]

/-- Collapsing the head of an mssql statement: SELECT, TOP and the limit
number keep their single separating spaces. -/
theorem squeeze_select_top (n : Nat) (dt : List Char) :
    squeezeSt false ("SELECT".data ++ ' ' :: ('T' :: 'O' :: 'P' :: ' ' :: (natChars n ++ ' ' :: dt))) =
      "SELECT".data ++ ' ' :: ('T' :: 'O' :: 'P' :: ' ' :: (natChars n ++ ' ' :: squeezeSt true dt)) := by
  rw [squeezeSt_chunk "SELECT".data false _ (by decide) (by decide)]
  rw [squeezeSt_space_false]
  rw [show ('T' :: 'O' :: 'P' :: ' ' :: (natChars n ++ ' ' :: dt)) =
    ['T', 'O', 'P'] ++ (' ' :: (natChars n ++ ' ' :: dt)) from rfl]
  rw [squeezeSt_chunk ['T', 'O', 'P'] true _ (by decide) (by decide)]
  rw [squeezeSt_space_false]
  rw [squeezeSt_chunk (natChars n) true _ (natChars_ne_nil n) (natChars_nonws n)]
  rw [squeezeSt_space_false]
  rfl

/-- The raw statement text splits before its final piece, the space and the
LIMIT fragment. -/
theorem raw_split_limit (p : SqlQuery) :
    ∃ a, (assembleRaw p).data = a ++ ' ' :: (limitFrag p).data := by
  refine ⟨"SELECT".data ++ ' ' :: ((topFrag p).data ++ ' ' :: ((distinctFrag p).data ++ ' ' ::
    ((aggFrag p).data ++ ' ' :: ((projFrag p).data ++ ' ' ::
    ('F' :: 'R' :: 'O' :: 'M' :: ' ' :: ((tablesString p).data ++ ' ' ::
    ((joinsPiece p).data ++ ' ' :: ((wherePiece p).data ++ ' ' ::
    ((groupPiece p).data ++ ' ' :: ((havingPiece p).data ++ ' ' ::
    (orderPiece p).data)))))))))), ?_⟩
  rw [assembleRaw_eq]
  unfold tailFrom
  simp only [List.append_assoc, List.cons_append, List.singleton_append, List.nil_append]

/-- Claim C8: for a valid specification with a (truthy) limit, the mssql
dialect renders a leading `TOP n` immediately after SELECT and emits no
LIMIT fragment, while every other dialect renders a trailing ` LIMIT n` and
emits no TOP fragment — the two syntaxes never co-occur. -/
theorem claim_C8_limit_gating (p : SqlQuery) (n : Nat) (hl : p.limit = some n) (hn : n ≠ 0)
    (hv : validations p = Except.ok ()) :
    (p.client = Dialect.mssql →
      hasPre (buildText p).data ("SELECT TOP ".data ++ natChars n ++ [' ']) = true
        ∧ limitFrag p = "")
    ∧ (p.client ≠ Dialect.mssql →
      hasSuf (buildText p).data (' ' :: ("LIMIT ".data ++ natChars n)) = true
        ∧ topFrag p = "") := by
  have hbt : (buildText p).data = collapseWs (assembleRaw p).data := by
    simp only [buildText, strMk_data]
  constructor
  · intro hc
    have htop : topFrag p = "TOP " ++ natStr n := by
      simp only [topFrag, hl, hc]
      simp [hn]
    have hlim : limitFrag p = "" := by
      simp only [limitFrag, hl, hc]
      simp
    refine ⟨?_, hlim⟩
    have hTN : ("TOP " ++ natStr n).data = 'T' :: 'O' :: 'P' :: ' ' :: natChars n := by
      rw [strData_append]
      rw [show ("TOP " : String).data = 'T' :: 'O' :: 'P' :: [' '] from rfl]
      simp only [natStr, strMk_data, List.cons_append, List.nil_append]
    have hsplit : (assembleRaw p).data =
        ("SELECT".data ++ ' ' :: ('T' :: 'O' :: 'P' :: ' ' :: (natChars n ++ [' ']))) ++ tailFrom p := by
      rw [assembleRaw_eq, htop, hTN]
      simp only [List.append_assoc, List.cons_append, List.singleton_append, List.nil_append]
    have hdw : dropWs (assembleRaw p).data = (assembleRaw p).data := by
      conv_lhs => rw [assembleRaw_eq]
      rw [dropWs_select_pre, ← assembleRaw_eq]
    have hdt : dropTrail (assembleRaw p).data =
        ("SELECT".data ++ ' ' :: ('T' :: 'O' :: 'P' :: ' ' :: (natChars n ++ [' '])))
          ++ dropTrail (tailFrom p) := by
      rw [hsplit]
      exact dropTrail_append_ex _ _ ⟨'F', tailFrom_hasF p, rfl⟩
    have hcol : collapseWs (assembleRaw p).data =
        "SELECT".data ++ ' ' :: ('T' :: 'O' :: 'P' :: ' ' ::
          (natChars n ++ ' ' :: squeezeSt true (dropTrail (tailFrom p)))) := by
      unfold collapseWs trimWs
      rw [hdw, hdt]
      rw [show ("SELECT".data ++ ' ' :: ('T' :: 'O' :: 'P' :: ' ' :: (natChars n ++ [' '])))
          ++ dropTrail (tailFrom p) =
        "SELECT".data ++ ' ' :: ('T' :: 'O' :: 'P' :: ' ' ::
          (natChars n ++ ' ' :: dropTrail (tailFrom p))) from by
          simp only [List.append_assoc, List.cons_append, List.singleton_append, List.nil_append]]
      exact squeeze_select_top n (dropTrail (tailFrom p))
    rw [hbt, hcol]
    rw [show ("SELECT".data ++ ' ' :: ('T' :: 'O' :: 'P' :: ' ' ::
        (natChars n ++ ' ' :: squeezeSt true (dropTrail (tailFrom p))))) =
      ("SELECT TOP ".data ++ natChars n ++ [' ']) ++ squeezeSt true (dropTrail (tailFrom p)) from by
        rw [show ("SELECT TOP " : String).data =
          "SELECT".data ++ ' ' :: ('T' :: 'O' :: 'P' :: [' ']) from rfl]
        simp only [List.append_assoc, List.cons_append, List.singleton_append, List.nil_append]]
    exact hasPre_append _ _
  · intro hc
    have hce : (p.client == Dialect.mssql) = false := by
      simp [hc]
    have htop0 : topFrag p = "" := by
      simp only [topFrag, hl, hce]
      simp
    have hlim : limitFrag p = "LIMIT " ++ natStr n := by
      simp only [limitFrag, hl, hce]
      simp [hn]
    refine ⟨?_, htop0⟩
    have hLN : (limitFrag p).data = 'L' :: ("IMIT ".data ++ natChars n) := by
      rw [hlim, strData_append]
      rw [show ("LIMIT " : String).data = 'L' :: "IMIT ".data from rfl]
      simp only [natStr, strMk_data, List.cons_append]
    obtain ⟨A, hsplit⟩ := raw_split_limit p
    rw [hLN] at hsplit
    have hdw : dropWs (assembleRaw p).data = (assembleRaw p).data := by
      conv_lhs => rw [assembleRaw_eq]
      rw [dropWs_select_pre, ← assembleRaw_eq]
    have hcol : ∃ x, collapseWs (assembleRaw p).data =
        x ++ ' ' :: ("LIMIT ".data ++ natChars n) := by
      unfold collapseWs trimWs
      rw [hdw, hsplit]
      rw [show A ++ ' ' :: ('L' :: ("IMIT ".data ++ natChars n)) =
        (A ++ (' ' :: ('L' :: "IMIT ".data))) ++ natChars n from by
          simp only [List.append_assoc, List.cons_append, List.nil_append]]
      rw [dropTrail_end_nonws _ _ (natChars_ne_nil n) (natChars_nonws n)]
      rw [show (A ++ (' ' :: ('L' :: "IMIT ".data))) ++ natChars n =
        A ++ ' ' :: 'L' :: ("IMIT ".data ++ natChars n) from by
          simp only [List.append_assoc, List.cons_append, List.nil_append]]
      rcases squeezeSt_suffix A false 'L' ("IMIT ".data ++ natChars n) rfl with ⟨x, hx⟩ | ⟨hb, _⟩
      · refine ⟨x, ?_⟩
        rw [hx]
        rw [show ('L' :: ("IMIT ".data ++ natChars n)) = "LIMIT".data ++ (' ' :: natChars n) from rfl]
        rw [squeezeSt_chunk "LIMIT".data false _ (by decide) (by decide)]
        rw [squeezeSt_space_false,
          squeezeSt_nonws_all (natChars n) true (natChars_ne_nil n) (natChars_nonws n)]
        rw [show ("LIMIT".data ++ ' ' :: natChars n) = "LIMIT ".data ++ natChars n from by
          simp only [List.cons_append, List.append_assoc]
          rfl]
      · exact Bool.noConfusion hb
    obtain ⟨x, hx⟩ := hcol
    rw [hbt, hx]
    exact hasSuf_append _ _

/-- Witness for claim C8: the mssql spec with limit 5 renders
"SELECT TOP 5 * FROM users ORDER BY id". -/
theorem claim_C8_witness :
    (wit8.limit = some 5 ∧ (5 : Nat) ≠ 0 ∧ validations wit8 = Except.ok ())
    ∧ ((wit8.client = Dialect.mssql →
        hasPre (buildText wit8).data ("SELECT TOP ".data ++ natChars 5 ++ [' ']) = true
          ∧ limitFrag wit8 = "")
      ∧ (wit8.client ≠ Dialect.mssql →
        hasSuf (buildText wit8).data (' ' :: ("LIMIT ".data ++ natChars 5)) = true
          ∧ topFrag wit8 = "")) :=
  ⟨⟨rfl, by decide, rfl⟩, claim_C8_limit_gating wit8 5 rfl (by decide) rfl⟩
